import Mathlib

/-!
Verification development for the real-time fraud decision core
(decision-engine, rules-service, and their leaf stores).

The Python services are shallowly embedded: pure functions become Lean
functions over `ℚ` (ML scores, amounts) with `Option` for nullable values;
the stateful request path (`score_transaction`, `orchestrate`, the Redis
idempotency store, the velocity tracker's sorted sets, the rules-service
list checks) becomes explicit state passing over record types.  Timing
values (latencies, wall-clock elapsed time inside the rule loop) are
supplied as inputs rather than read from a clock; everything else follows
the source line by line.
-/

namespace FraudCore

/-- Embeds `DecisionType` from `decision-engine/app/models.py`. -/
inductive DecisionType where
  | ALLOW
  | CHALLENGE
  | DENY
deriving DecidableEq, Repr

/-- Thresholds from `decision-engine/app/config.py`: `THRESHOLD_LOW_RISK = 0.50`. -/
def THRESHOLD_LOW_RISK : ℚ := 1/2

/-- Thresholds from `decision-engine/app/config.py`: `THRESHOLD_HIGH_RISK = 0.70`. -/
def THRESHOLD_HIGH_RISK : ℚ := 7/10

/-- Embeds `REDIS_IDEMPOTENCY_TTL = 86400` from `decision-engine/app/config.py`. -/
def REDIS_IDEMPOTENCY_TTL : ℕ := 86400

/-- The reason strings built by `_make_decision` are modelled structurally
(the Python code interpolates the score and joins rule names into the
string; the constructor arguments carry exactly the interpolated data). -/
inductive Reason where
  | criticalRule
  | rulesJoined (rs : List String)
  | unableToScore
  | highRisk (s : ℚ)
  | riskFactors (fs : List String)
  | rulesTriggered (rs : List String)
  | mediumRisk (s : ℚ)
  | twoFAValidated
  | twoFARequired
  | lowRisk (s : ℚ)
  | minorRules (rs : List String)
  | noRulesTriggered
deriving DecidableEq, Repr

/-- Embeds `DecisionOrchestrator._make_decision` from
`decision-engine/app/orchestrator.py` (lines 254-328), translated clause by
clause.  Returns `(decision, reasons, requires_2fa)`. -/
def make_decision (score : Option ℚ) (rule_hits : List String)
    (is_critical : Bool) (has_initial_2fa : Bool) (top_features : List String) :
    DecisionType × List Reason × Bool :=
  -- Critical rules override everything
  if is_critical then
    (DecisionType.DENY,
     [Reason.criticalRule] ++
       (if rule_hits ≠ [] then [Reason.rulesJoined (rule_hits.take 3)] else []),
     false)
  else
    match score with
    -- ML failed - fail safe
    | none => (DecisionType.CHALLENGE, [Reason.unableToScore], true)
    | some s =>
      -- High risk score
      if THRESHOLD_HIGH_RISK < s then
        (DecisionType.CHALLENGE,
         [Reason.highRisk s] ++
           (if top_features ≠ [] then [Reason.riskFactors (top_features.take 3)] else []) ++
           (if rule_hits ≠ [] then [Reason.rulesTriggered (rule_hits.take 3)] else []),
         true)
      -- Medium risk score
      else if THRESHOLD_LOW_RISK ≤ s then
        if has_initial_2fa then
          (DecisionType.ALLOW, [Reason.mediumRisk s, Reason.twoFAValidated], false)
        else
          (DecisionType.CHALLENGE, [Reason.mediumRisk s, Reason.twoFARequired], true)
      -- Low risk - allow
      else
        (DecisionType.ALLOW,
         [Reason.lowRisk s] ++
           (if rule_hits ≠ [] then [Reason.minorRules (rule_hits.take 2)]
            else [Reason.noRulesTriggered]),
         false)

/-- Modelled from the spec's combination-policy table (§4.2): a total
function of `(score, is_critical, has_initial_2fa)` with thresholds
`LOW = 0.50`, `HIGH = 0.70`, first match wins; returns
`(decision, requires_2fa)`.  Written from the spec's words, to be compared
against `make_decision`. -/
def combination_policy_spec (score : Option ℚ) (is_critical : Bool)
    (has_initial_2fa : Bool) : DecisionType × Bool :=
  if is_critical then (DecisionType.DENY, false)
  else
    match score with
    | none => (DecisionType.CHALLENGE, true)
    | some s =>
      if 7/10 < s then (DecisionType.CHALLENGE, true)
      else if 1/2 ≤ s ∧ s ≤ 7/10 then
        if has_initial_2fa then (DecisionType.ALLOW, false)
        else (DecisionType.CHALLENGE, true)
      else (DecisionType.ALLOW, false)

/-- Projection of `make_decision` onto the pair the policy table speaks
about: the decision and the `requires_2fa` flag. -/
def make_decision_dr (score : Option ℚ) (rule_hits : List String)
    (is_critical : Bool) (has_initial_2fa : Bool) (top_features : List String) :
    DecisionType × Bool :=
  let r := make_decision score rule_hits is_critical has_initial_2fa top_features
  (r.1, r.2.2)

/-- C1: the combination policy is the total function given by the spec's
table with thresholds LOW = 0.50 and HIGH = 0.70, first match wins; and in
particular an input with `is_critical = true` always yields DENY and an
input with a null score (and no critical rule) always yields CHALLENGE, so
neither ever yields ALLOW. -/
theorem C1_combination_policy_correct :
    (∀ (score : Option ℚ) (rule_hits : List String)
       (is_critical has_initial_2fa : Bool) (top_features : List String),
      make_decision_dr score rule_hits is_critical has_initial_2fa top_features =
        combination_policy_spec score is_critical has_initial_2fa) ∧
    (∀ (score : Option ℚ) (rule_hits : List String)
       (has_initial_2fa : Bool) (top_features : List String),
      (make_decision score rule_hits true has_initial_2fa top_features).1 =
        DecisionType.DENY) ∧
    (∀ (rule_hits : List String) (has_initial_2fa : Bool) (top_features : List String),
      (make_decision none rule_hits false has_initial_2fa top_features).1 =
        DecisionType.CHALLENGE) := by
  refine ⟨?_, ?_, ?_⟩
  · intro score rule_hits is_critical has_initial_2fa top_features
    cases is_critical
    · cases score
      · simp [make_decision_dr, make_decision, combination_policy_spec]
      · rename_i s
        by_cases h1 : (7:ℚ)/10 < s
        · simp [make_decision_dr, make_decision, combination_policy_spec,
            THRESHOLD_HIGH_RISK, THRESHOLD_LOW_RISK, h1]
        · by_cases h2 : (2:ℚ)⁻¹ ≤ s
          · have h3 : s ≤ 7/10 := le_of_not_lt h1
            cases has_initial_2fa <;>
              simp [make_decision_dr, make_decision, combination_policy_spec,
                THRESHOLD_HIGH_RISK, THRESHOLD_LOW_RISK, h1, h2, h3]
          · cases has_initial_2fa <;>
              simp [make_decision_dr, make_decision, combination_policy_spec,
                THRESHOLD_HIGH_RISK, THRESHOLD_LOW_RISK, h1, h2]
    · simp [make_decision_dr, make_decision, combination_policy_spec]
  · intro score rule_hits has_initial_2fa top_features
    simp [make_decision]
  · intro rule_hits has_initial_2fa top_features
    simp [make_decision]

/-! ### Rule DSL comparison semantics (`rules-service/app/rules_engine.py`) -/

/-- Values flowing through `RuleDSLEvaluator._safe_compare`: Python `None`,
numbers, strings and booleans. -/
inductive DSLValue where
  | null
  | num (q : ℚ)
  | str (s : String)
  | bool (b : Bool)
deriving DecidableEq, Repr

/-- The six comparison operators of the DSL
(`self.operators` in `RuleDSLEvaluator.__init__`). -/
inductive CmpOp where
  | gt
  | lt
  | ge
  | le
  | eq
  | ne
deriving DecidableEq, Repr

/-- Python `==` on the values the evaluator handles (`True == 1` holds,
cross-type comparisons are unequal). -/
def pyEq : DSLValue → DSLValue → Bool
  | DSLValue.null, DSLValue.null => true
  | DSLValue.num a, DSLValue.num b => a == b
  | DSLValue.str a, DSLValue.str b => a == b
  | DSLValue.bool a, DSLValue.bool b => a == b
  | DSLValue.bool a, DSLValue.num b => (if a then (1 : ℚ) else 0) == b
  | DSLValue.num a, DSLValue.bool b => a == (if b then (1 : ℚ) else 0)
  | _, _ => false

/-- Python `!=`. -/
def pyNe (a b : DSLValue) : Bool := !(pyEq a b)

/-- Python `float(s)` restricted to the integer strings exercised here
(no claim depends on fractional string coercion). -/
def pyFloat? (s : String) : Option ℚ :=
  (s.trim.toInt?).map (fun n => (n : ℚ))

/-- Numeric view of a value for ordering: Python treats `bool` as an `int`. -/
def numView : DSLValue → Option ℚ
  | DSLValue.num a => some a
  | DSLValue.bool b => some (if b then 1 else 0)
  | _ => none

/-- The comparison `op(a, b)` performed on the non-null path: numbers (and
booleans, which Python orders as integers) compare numerically, strings
compare lexicographically, and an unordered cross-type comparison raises
`TypeError`, which the surrounding `try` turns into `False`. -/
def pyCompare (a b : DSLValue) (op : CmpOp) : Bool :=
  match op with
  | CmpOp.eq => pyEq a b
  | CmpOp.ne => pyNe a b
  | _ =>
    match numView a, numView b with
    | some x, some y =>
      match op with
      | CmpOp.gt => x > y
      | CmpOp.lt => x < y
      | CmpOp.ge => x ≥ y
      | CmpOp.le => x ≤ y
      | _ => false
    | _, _ =>
      match a, b with
      | DSLValue.str x, DSLValue.str y =>
        match op with
        | CmpOp.gt => decide (y < x)
        | CmpOp.lt => decide (x < y)
        | CmpOp.ge => decide (y < x) || x == y
        | CmpOp.le => decide (x < y) || x == y
        | _ => false
      | _, _ => false

/-- Embeds `RuleDSLEvaluator._safe_compare` (lines 40-65).  In the source every
operator entry passes a lambda, so on the `a is None or b is None` branch
`op.__name__ == '<lambda>'` is always true, and `'==' in str(op)` is always
false because the repr of a lambda function contains no `==` text; the
branch therefore computes `a != b` for every one of the six operators, and
the `return False` fallback for the ordering operators is unreachable.
On the non-null path, a number paired with a string coerces the string via
`float(...)`, failure yielding `False`; then the operator runs. -/
def safe_compare (a b : DSLValue) (op : CmpOp) : Bool :=
  if a = DSLValue.null ∨ b = DSLValue.null then
    pyNe a b
  else
    match a, b with
    | DSLValue.num x, DSLValue.str s =>
      match pyFloat? s with
      | none => false
      | some y => pyCompare (DSLValue.num x) (DSLValue.num y) op
    | DSLValue.str s, DSLValue.num y =>
      match pyFloat? s with
      | none => false
      | some x => pyCompare (DSLValue.num x) (DSLValue.num y) op
    | _, _ => pyCompare a b op

/-- C2: evaluation of `_safe_compare` at null operands.  Contrary to the
claimed referential semantics, `null == null` evaluates to `false`,
`null == 5` evaluates to `true`, and the ordering comparison `null > 5`
evaluates to `true` rather than `false`: with a null side the code returns
`a != b` for every operator, because every operator is a lambda and a
lambda's repr never contains the text `==`. -/
theorem C2_null_comparison_behavior :
    safe_compare DSLValue.null DSLValue.null CmpOp.eq = false ∧
    safe_compare DSLValue.null (DSLValue.num 5) CmpOp.eq = true ∧
    safe_compare DSLValue.null (DSLValue.num 5) CmpOp.gt = true ∧
    safe_compare (DSLValue.num 5) DSLValue.null CmpOp.le = true ∧
    safe_compare DSLValue.null DSLValue.null CmpOp.ne = false ∧
    safe_compare DSLValue.null (DSLValue.num 5) CmpOp.ne = true := by
  refine ⟨rfl, rfl, rfl, rfl, rfl, rfl⟩

/-! ### Idempotency store (`decision-engine/app/idempotency.py`) -/

/-- The Redis keyspace used by the idempotency checker: key, value, and
absolute expiry time (seconds). -/
abbrev RedisIdem : Type := List (String × String × ℕ)

/-- Redis `GET` with expiry semantics: a key is visible while `now` is
before its expiry. -/
def idemGet (st : RedisIdem) (key : String) (now : ℕ) : Option String :=
  match st.find? (fun e => e.1 == key) with
  | some (_, v, exp) => if now < exp then some v else none
  | none => none

/-- Redis `SETEX key ttl value`. -/
def idemSetex (st : RedisIdem) (key value : String) (ttl now : ℕ) : RedisIdem :=
  (key, value, now + ttl) :: st.filter (fun e => !(e.1 == key))

/-- Embeds `IdempotencyChecker.check_and_set` (lines 42-78), sequential semantics:
`GET idem:<key>`; if present return it, else `SETEX` the candidate
decision id with the configured TTL and return `None`.  (Stored decision
ids are non-empty strings, so Python truthiness of `existing` coincides
with presence.) -/
def check_and_set (st : RedisIdem) (idempotency_key decision_id : String)
    (now : ℕ) : Option String × RedisIdem :=
  let redis_key := "idem:" ++ idempotency_key
  match idemGet st redis_key now with
  | some existing => (some existing, st)
  | none => (none, idemSetex st redis_key decision_id REDIS_IDEMPOTENCY_TTL now)

/-- One in-flight `check_and_set` caller: its candidate decision id, a
program counter over its two Redis round-trips (`0` = about to `GET`,
`1` = about to `SETEX`, `2` = returned), and the value it returns. -/
structure CASClient where
  decision_id : String
  pc : ℕ
  observed : Option String
deriving DecidableEq, Repr

/-- One atomic Redis round-trip of a `check_and_set` caller.  The `GET` and
the `SETEX` in the source are two separate awaited commands, so another
task may run between them.  Returns the store, the client, and how many
writes this step applied (every issued write is applied: the store loses
nothing). -/
def stepCAS (key : String) (now : ℕ) (store : RedisIdem) (c : CASClient) :
    RedisIdem × CASClient × ℕ :=
  let redis_key := "idem:" ++ key
  match c.pc with
  | 0 =>
    match idemGet store redis_key now with
    | some v => (store, { c with pc := 2, observed := some v }, 0)
    | none => (store, { c with pc := 1, observed := none }, 0)
  | 1 =>
    (idemSetex store redis_key c.decision_id REDIS_IDEMPOTENCY_TTL now,
     { c with pc := 2, observed := none }, 1)
  | _ => (store, c, 0)

/-- Run two concurrent `check_and_set` callers under a schedule
(`true` = client A takes the next step).  Returns the final store, both
clients, and the total number of writes applied to the store. -/
def runCAS (key : String) (now : ℕ) : List Bool → RedisIdem → CASClient → CASClient →
    RedisIdem × CASClient × CASClient × ℕ
  | [], store, a, b => (store, a, b, 0)
  | pick :: rest, store, a, b =>
    if pick then
      let (store', a', w) := stepCAS key now store a
      let (store'', a'', b'', ws) := runCAS key now rest store' a' b
      (store'', a'', b'', w + ws)
    else
      let (store', b', w) := stepCAS key now store b
      let (store'', a'', b'', ws) := runCAS key now rest store' a b'
      (store'', a'', b'', w + ws)

/-- C3: under the interleaving `GET_A, GET_B, SETEX_A, SETEX_B` on an empty
store, both concurrent `check_and_set` callers with the same fingerprint
run to completion, every issued write is applied (two writes, none lost,
the key ends up holding the second caller's id), and yet both callers
observe null — the `GET`-then-`SETEX` pair is not atomic, contradicting
the claimed exactly-one-winner behaviour. -/
theorem C3_check_and_set_not_atomic :
    (runCAS "t:e1" 1000 [true, false, true, false] []
        ⟨"dec_a", 0, none⟩ ⟨"dec_b", 0, none⟩).2.1.observed = none ∧
    (runCAS "t:e1" 1000 [true, false, true, false] []
        ⟨"dec_a", 0, none⟩ ⟨"dec_b", 0, none⟩).2.2.1.observed = none ∧
    (runCAS "t:e1" 1000 [true, false, true, false] []
        ⟨"dec_a", 0, none⟩ ⟨"dec_b", 0, none⟩).2.2.1.pc = 2 ∧
    (runCAS "t:e1" 1000 [true, false, true, false] []
        ⟨"dec_a", 0, none⟩ ⟨"dec_b", 0, none⟩).2.1.pc = 2 ∧
    (runCAS "t:e1" 1000 [true, false, true, false] []
        ⟨"dec_a", 0, none⟩ ⟨"dec_b", 0, none⟩).2.2.2 = 2 ∧
    idemGet (runCAS "t:e1" 1000 [true, false, true, false] []
        ⟨"dec_a", 0, none⟩ ⟨"dec_b", 0, none⟩).1 "idem:t:e1" 1000 = some "dec_b" := by
  refine ⟨rfl, rfl, rfl, rfl, rfl, rfl⟩

/-! ### Velocity tracker (`decision-engine/app/velocity.py`) -/

/-- Members of the velocity sorted sets.  The source builds the member
string the now-colon-objid token for the count sets and
that token with the amount appended for the amount set; the encoding is injective, so
member (string) equality coincides with equality of these structured
values. -/
inductive VMember where
  | tok (now : ℤ) (objId : ℕ)
  | tokAmt (now : ℤ) (objId : ℕ) (amount : ℚ)
deriving DecidableEq, Repr

/-- A Redis sorted set: members with scores, each member at most once. -/
abbrev ZSet : Type := List (VMember × ℤ)

/-- Embeds `ZREMRANGEBYSCORE key lo hi` (inclusive range). -/
def zremrangebyscore (z : ZSet) (lo hi : ℤ) : ZSet :=
  z.filter (fun e => !(lo ≤ e.2 && e.2 ≤ hi))

/-- Embeds `ZADD`: update the score of an existing member,
otherwise insert. -/
def zadd (z : ZSet) (member : VMember) (score : ℤ) : ZSet :=
  if z.any (fun e => e.1 == member) then
    z.map (fun e => if e.1 == member then (member, score) else e)
  else
    z ++ [(member, score)]

/-- Embeds `ZCARD`. -/
def zcard (z : ZSet) : ℕ := z.length

/-- Embeds `float(entry.split(":")[-1])` on an amount-set member: the last
colon-separated segment is the amount. -/
def amtOf : VMember → ℚ
  | VMember.tok _ i => (i : ℚ)
  | VMember.tokAmt _ _ a => a

/-- The velocity keyspace: key → sorted set. -/
abbrev VelocityStore : Type := List (String × ZSet)

def vsGet (vs : VelocityStore) (key : String) : ZSet :=
  match vs.find? (fun e => e.1 == key) with
  | some (_, z) => z
  | none => []

def vsSet (vs : VelocityStore) (key : String) (z : ZSet) : VelocityStore :=
  (key, z) :: vs.filter (fun e => !(e.1 == key))

/-- Embeds `VelocityTracker.WINDOW_1H`. -/
def WINDOW_1H : ℤ := 3600

/-- Embeds `VelocityTracker.WINDOW_24H`. -/
def WINDOW_24H : ℤ := 86400

/-- The triple returned by the tracker. -/
structure VelocityData where
  velocity_1h : ℕ
  velocity_24h : ℕ
  amount_sum_24h : ℚ
deriving DecidableEq, Repr

/-- Embeds `VelocityTracker.record_transaction` (lines 55-126): prune each of the
three per-user sets by score range `[0, now − window]`, add the member
the now-colon-objid token (resp. with the amount appended) at score `now`,
count cardinalities, and sum the amounts parsed from the amount set.
`objId` is `id(self)` — constant for the module-level singleton tracker.
Key TTL refreshes only matter for idle keys and are not modelled. -/
def record_transaction (vs : VelocityStore) (user_id : String) (amount : ℚ)
    (now : ℤ) (objId : ℕ) : VelocityData × VelocityStore :=
  let key_1h := "velocity:" ++ user_id ++ ":1h"
  let key_24h := "velocity:" ++ user_id ++ ":24h"
  let key_amount := "velocity:" ++ user_id ++ ":amount_24h"
  let z1 := zremrangebyscore (vsGet vs key_1h) 0 (now - WINDOW_1H)
  let z24 := zremrangebyscore (vsGet vs key_24h) 0 (now - WINDOW_24H)
  let zam := zremrangebyscore (vsGet vs key_amount) 0 (now - WINDOW_24H)
  let z1 := zadd z1 (VMember.tok now objId) now
  let z24 := zadd z24 (VMember.tok now objId) now
  let zam := zadd zam (VMember.tokAmt now objId amount) now
  let data : VelocityData :=
    { velocity_1h := zcard z1
      velocity_24h := zcard z24
      amount_sum_24h := (zam.map (fun e => amtOf e.1)).sum }
  (data, vsSet (vsSet (vsSet vs key_1h z1) key_24h z24) key_amount zam)

/-- C9: two `record_transaction` calls for the same user completed within
the same epoch second (and hence well inside every window) leave the 1h
count at 1, not 2: the member token the now-colon-objid token is identical for
both calls (`now` has second granularity and `id(self)` is the constant
identity of the singleton tracker), so the second `ZADD` merely refreshes
the existing member.  A third call one second later does count, reaching 2,
not 3. -/
theorem C9_member_token_not_unique :
    (record_transaction
        (record_transaction [] "u" 10 1000 7).2 "u" 10 1000 7).1.velocity_1h = 1 ∧
    decide ((record_transaction
        (record_transaction [] "u" 10 1000 7).2 "u" 10 1000 7).1.velocity_1h = 2)
      = false ∧
    (record_transaction
        (record_transaction
          (record_transaction [] "u" 10 1000 7).2 "u" 10 1000 7).2
        "u" 10 1001 7).1.velocity_1h = 2 := by
  refine ⟨by decide, by decide, by decide⟩

/-! ### Rules service (`rules-service/app/main.py`, `lists_checker.py`) -/

/-- Embeds `TransactionContext` from `rules-service/app/models.py` (fields the
evaluation path reads). -/
structure RSContext where
  transaction_id : String
  user_id : String
  amount : ℚ
  currency : String
  merchant_id : Option String
  merchant_category : Option String
  geo : Option String
  user_home_geo : Option String
  ip_address : Option String
  device_id : Option String
  payment_method : Option String
  tx_count_1h : Option ℕ
  tx_count_24h : Option ℕ
  amount_sum_24h : Option ℚ
deriving DecidableEq, Repr

/-- Embeds `ListsChecker.check_fields`. -/
def check_fields : List String :=
  ["user_id", "ip_address", "device_id", "merchant_id", "geo"]

/-- Embeds `context.get(field)` for the fields the lists checker consults. -/
def fieldValue (ctx : RSContext) : String → Option String
  | "user_id" => some ctx.user_id
  | "ip_address" => ctx.ip_address
  | "device_id" => ctx.device_id
  | "merchant_id" => ctx.merchant_id
  | "geo" => ctx.geo
  | _ => none

/-- The deny/allow sets held in Redis, as `(field, value)` membership
lists (`deny_list:<field>` / `allow_list:<field>` keys). -/
structure ListsState where
  deny : List (String × String)
  allow : List (String × String)
deriving DecidableEq, Repr

/-- A deny/allow list match as built by the lists checker. -/
structure ListMatch where
  list_type : String
  list_name : String
  matched_value : String
  field : String
  reason : String
deriving DecidableEq, Repr

/-- Embeds `ListsChecker.check_deny_lists` / `check_allow_lists`: walk the fixed
field list, skip falsy values (`None` or empty string), and collect a match
for each value present in the corresponding set. -/
def check_list (members : List (String × String)) (list_type : String)
    (ctx : RSContext) : List ListMatch :=
  check_fields.filterMap (fun field =>
    match fieldValue ctx field with
    | none => none
    | some v =>
      if v ≠ "" ∧ (field, v) ∈ members then
        some { list_type := list_type
               list_name := list_type ++ "_list:" ++ field
               matched_value := v
               field := field
               reason := field ++ " '" ++ v ++ "' is on " ++ list_type ++ " list" }
      else none)

/-- Embeds `ListsChecker.check_all_lists` (lines 113-126). -/
def check_all_lists (lists : ListsState) (ctx : RSContext) :
    List ListMatch × List ListMatch :=
  (check_list lists.deny "deny" ctx, check_list lists.allow "allow" ctx)

/-- A rule row from `rules_v2` as loaded by `load_rules_from_db`. -/
structure Rule where
  id : String
  name : String
  expression : String
  action : String
  priority : ℤ
  enabled : Bool
  description : Option String
deriving DecidableEq, Repr

/-- A matched rule as built by `RulesEngine.evaluate_rules`. -/
structure MatchedRule where
  rule_id : String
  rule_name : String
  expression : String
  action : String
  reason : String
  priority : ℤ
deriving DecidableEq, Repr

/-- Stable insertion keeping descending priority order (Python
`sorted(..., key=priority, reverse=True)` is a stable descending sort). -/
def insertByPriority (r : Rule) : List Rule → List Rule
  | [] => [r]
  | y :: ys => if r.priority < y.priority then y :: insertByPriority r ys else r :: y :: ys

/-- Stable descending sort by priority. -/
def sortByPriorityDesc : List Rule → List Rule
  | [] => []
  | r :: rs => insertByPriority r (sortByPriorityDesc rs)

/-- Embeds `RulesEngine.evaluate_rules` (`rules_engine.py` lines 278-335): sort by
priority descending, skip disabled rules, evaluate each expression against
the context, and collect the matches in order.  The DSL evaluation of one
expression is passed in as `evalFn` (the `RuleDSLEvaluator.evaluate`
method; it returns `False` on any internal error, so it is total).  The
wall-clock timeout check is modelled at zero elapsed time, where the break
never fires. -/
def evaluate_rules (rules : List Rule) (ctx : RSContext)
    (evalFn : String → RSContext → Bool) : List MatchedRule :=
  (sortByPriorityDesc rules).filterMap (fun rule =>
    if rule.enabled then
      if evalFn rule.expression ctx then
        some { rule_id := rule.id
               rule_name := rule.name
               expression := rule.expression
               action := rule.action
               reason := rule.description.getD ("Rule " ++ rule.name ++ " matched")
               priority := rule.priority }
      else none
    else none)

/-- The `/evaluate` response (`EvaluationResponse`), without the wall-clock
`evaluation_time_ms`. -/
structure EvaluationResponse where
  transaction_id : String
  should_deny : Bool
  should_review : Bool
  matched_rules : List MatchedRule
  list_matches : List ListMatch
  reasons : List String
deriving DecidableEq, Repr

/-- Embeds `evaluate_transaction` (`rules-service/app/main.py` lines 237-356):
check the deny and allow lists when `check_lists` is set; every deny match
sets `should_deny`; an allow match with no deny match returns early with
`should_deny = false` and no matched rules, skipping rule evaluation
entirely; otherwise the rules run and `deny`/`review` actions set the
flags.  The second component records whether rule evaluation ran. -/
def evaluate_transaction (lists : ListsState) (rules : List Rule)
    (evalFn : String → RSContext → Bool) (ctx : RSContext)
    (check_lists : Bool) : EvaluationResponse × Bool :=
  let (deny_matches, allow_matches) :=
    if check_lists then check_all_lists lists ctx else ([], [])
  if !allow_matches.isEmpty && deny_matches.isEmpty then
    ({ transaction_id := ctx.transaction_id
       should_deny := false
       should_review := false
       matched_rules := []
       list_matches := deny_matches ++ allow_matches
       reasons := ["Transaction on allow list"] }, false)
  else
    let matched := evaluate_rules rules ctx evalFn
    ({ transaction_id := ctx.transaction_id
       should_deny := !deny_matches.isEmpty || matched.any (fun r => r.action == "deny")
       should_review := matched.any (fun r => r.action == "review")
       matched_rules := matched
       list_matches := deny_matches ++ allow_matches
       reasons := deny_matches.map (fun m => m.reason) ++ matched.map (fun r => r.reason) },
     true)

/-- C7: with `check_lists = true`, any deny-list match forces
`should_deny = true` whatever the allow-list matches and rule outcomes
(deny wins); an allow-list match with no deny-list match yields
`should_deny = false`, an empty `matched_rules`, and rule evaluation is
skipped entirely. -/
theorem C7_lists_short_circuit (lists : ListsState) (rules : List Rule)
    (evalFn : String → RSContext → Bool) (ctx : RSContext)
    (hd : check_list lists.deny "deny" ctx ≠ []) :
    (evaluate_transaction lists rules evalFn ctx true).1.should_deny = true ∧
    ∀ (lists' : ListsState),
      check_list lists'.allow "allow" ctx ≠ [] →
      check_list lists'.deny "deny" ctx = [] →
      (evaluate_transaction lists' rules evalFn ctx true).1.should_deny = false ∧
      (evaluate_transaction lists' rules evalFn ctx true).1.matched_rules = [] ∧
      (evaluate_transaction lists' rules evalFn ctx true).2 = false := by
  constructor
  · simp only [evaluate_transaction, check_all_lists]
    have h1 : (check_list lists.deny "deny" ctx).isEmpty = false := by
      cases h : check_list lists.deny "deny" ctx with
      | nil => exact absurd h hd
      | cons a l => simp [List.isEmpty]
    simp [h1]
  · intro lists' ha hd'
    have h1 : (check_list lists'.allow "allow" ctx).isEmpty = false := by
      cases h : check_list lists'.allow "allow" ctx with
      | nil => exact absurd h ha
      | cons a l => simp [List.isEmpty]
    simp [evaluate_transaction, check_all_lists, h1, hd']

/-- Witness for C7: a context whose user is on the deny list (and also on
the allow list) is denied; a context whose user is only on the allow list
comes back with `should_deny = false`, no matched rules, and no rule
evaluation. -/
theorem C7_lists_short_circuit_witness :
    (evaluate_transaction ⟨[("user_id", "u1")], [("user_id", "u1")]⟩ []
        (fun _ _ => false) ⟨"t1", "u1", 10, "EUR", none, none, none, none, none,
          none, none, none, none, none⟩ true).1.should_deny = true ∧
    (evaluate_transaction ⟨[], [("user_id", "u1")]⟩ []
        (fun _ _ => false) ⟨"t1", "u1", 10, "EUR", none, none, none, none, none,
          none, none, none, none, none⟩ true).2 = false := by
  constructor
  · exact (C7_lists_short_circuit ⟨[("user_id", "u1")], [("user_id", "u1")]⟩ []
      (fun _ _ => false) _ (by decide)).1
  · exact (((C7_lists_short_circuit ⟨[("user_id", "u1")], [("user_id", "u1")]⟩ []
      (fun _ _ => false) ⟨"t1", "u1", 10, "EUR", none, none, none, none, none,
        none, none, none, none, none⟩ (by decide)).2
      ⟨[], [("user_id", "u1")]⟩ (by decide) (by decide)).2).2

/-! ### SCA helper (`decision-engine/app/sca.py`) -/

/-- Embeds `SCALevel` (sca.py). -/
inductive SCALevel where
  | NONE
  | OTP_SMS
  | OTP_EMAIL
  | BIOMETRIC
  | PUSH_NOTIFICATION
  | HARDWARE_TOKEN
deriving DecidableEq, Repr

/-- Embeds `SCAStatus` (sca.py). -/
inductive SCAStatus where
  | PENDING
  | COMPLETED
  | FAILED
  | EXPIRED
  | BYPASSED
deriving DecidableEq, Repr

/-- Embeds `determine_sca_level` (sca.py lines 39-80).  The guards
`if amount and amount < 30.0` / `if amount and amount > 10000.0` use
Python truthiness of `amount`: `None` and `0.0` are falsy. -/
def determine_sca_level (risk_score : ℚ) (amount : Option ℚ) : SCALevel :=
  if (match amount with
      | some a => decide (a ≠ 0) && decide (a < 30)
      | none => false) then
    SCALevel.NONE
  else if (match amount with
      | some a => decide (a ≠ 0) && decide (a > 10000)
      | none => false) then
    SCALevel.HARDWARE_TOKEN
  else if risk_score < 3/10 then SCALevel.NONE
  else if risk_score < 1/2 then SCALevel.OTP_SMS
  else if risk_score < 7/10 then SCALevel.BIOMETRIC
  else if risk_score < 9/10 then SCALevel.PUSH_NOTIFICATION
  else SCALevel.HARDWARE_TOKEN

/-- A row of the `sca_challenges` table; `challenge_id` is the serial the
insert returns. -/
structure ScaChallengeRow where
  challenge_id : ℕ
  user_id : String
  transaction_id : String
  risk_score : ℚ
  challenge_type : SCALevel
  status : SCAStatus
deriving DecidableEq, Repr

/-! ### Decision engine request path
(`decision-engine/app/main.py`, `orchestrator.py`, `storage.py`) -/

/-- Embeds `Merchant` (decision-engine models.py). -/
structure Merchant where
  id : String
  name : Option String
  mcc : String
  country : String
deriving DecidableEq, Repr

/-- Embeds `Card` (decision-engine models.py); `card_type` renders the source's
`type` field. -/
structure Card where
  card_id : String
  user_id : String
  card_type : String
  bin : Option String
deriving DecidableEq, Repr

/-- Embeds `TransactionContext` (decision-engine models.py). -/
structure TransactionContext where
  ip : Option String
  geo : Option String
  device_id : Option String
  channel : String
  proxy_vpn_flag : Bool
deriving DecidableEq, Repr

/-- Embeds `ScoreRequest` (decision-engine models.py). -/
structure ScoreRequest where
  event_id : String
  tenant_id : String
  amount : ℚ
  currency : String
  merchant : Merchant
  card : Card
  context : TransactionContext
  has_initial_2fa : Bool
deriving DecidableEq, Repr

/-- Embeds `settings.MODEL_VERSION` default. -/
def MODEL_VERSION : String := "v1.0.0"

/-- A row of the `events` table (payload kept structurally; the SHA-256
over the canonical JSON is not modelled — nothing reads it back). -/
structure EventRow where
  event_id : String
  tenant_id : String
  event_type : String
  payload : ScoreRequest
  idem_key : String
deriving DecidableEq, Repr

/-- A row of the `decisions` table, exactly the columns
`store_decision` writes / `get_decision` reads back. -/
structure DecisionRow where
  decision_id : String
  event_id : String
  tenant_id : String
  decision : DecisionType
  score : Option ℚ
  rule_hits : List String
  reasons : List Reason
  latency_ms : ℕ
  model_version : String
  thresholds : ℚ × ℚ
deriving DecidableEq, Repr

/-- A row of the WORM `audit_logs` table (`store_audit_log`). -/
structure AuditRow where
  actor : String
  action : String
  entity : String
  entity_id : String
deriving DecidableEq, Repr

/-- A row of the `dpia_logs` table (`log_sca_event`). -/
structure DpiaRow where
  event : String
  transaction_id : String
deriving DecidableEq, Repr

/-- Messages published to the bus (`kafka_producer.py`). -/
inductive KafkaMsg where
  | decisionEvent (event_id decision_id : String) (decision : DecisionType)
      (score : Option ℚ)
  | caseEvent (event_id decision_id : String) (decision : DecisionType)
      (score : Option ℚ) (priority : ℕ) (queue : String)
deriving DecidableEq, Repr

/-- All stores the request path touches. -/
structure SystemState where
  idem : RedisIdem
  velocity : VelocityStore
  events : List EventRow
  decisions : List DecisionRow
  sca_challenges : List ScaChallengeRow
  dpia_logs : List DpiaRow
  audit_logs : List AuditRow
  kafka : List KafkaMsg
deriving Repr

/-- The responses of the two downstream HTTP calls plus the ambient
values the handler reads from the world: `ml_score = none` covers the
timeout and protocol-error branches of `call_model_serving`;
`(rule_hits, is_critical)` is what `call_rules_service` extracts from the
`/evaluate` response (`([], false)` on failure); `obj_id` is `id(self)` of
the velocity tracker singleton; the two latencies are the wall-clock
measurements. -/
structure OrchEnv where
  ml_score : Option ℚ
  top_features : List String
  rule_hits : List String
  is_critical : Bool
  obj_id : ℕ
  orch_latency_ms : ℕ
  total_latency_ms : ℕ
deriving DecidableEq, Repr

/-- What `orchestrate` returns to the handler. -/
structure OrchResult where
  decision : DecisionType
  score : Option ℚ
  rule_hits : List String
  reasons : List Reason
  requires_2fa : Bool
  latency_ms : ℕ
  model_version : String
  sca_challenge : Option ScaChallengeRow
deriving DecidableEq, Repr

/-- Embeds `create_sca_challenge` (sca.py lines 83-144): compute the level, insert
a PENDING `sca_challenges` row, and return the challenge (the serial id is
the current row count). -/
def create_sca_challenge (rows : List ScaChallengeRow) (user_id transaction_id : String)
    (risk_score : ℚ) (amount : Option ℚ) : ScaChallengeRow × List ScaChallengeRow :=
  let sca_level := determine_sca_level risk_score amount
  let row : ScaChallengeRow :=
    { challenge_id := rows.length
      user_id := user_id
      transaction_id := transaction_id
      risk_score := risk_score
      challenge_type := sca_level
      status := SCAStatus.PENDING }
  (row, rows ++ [row])

/-- Embeds `DecisionOrchestrator.orchestrate` (orchestrator.py lines 155-252):
record velocity for `card.user_id or "unknown"`, take the two downstream
results, apply `_make_decision`, and — only when the ML score is non-null
and `score > 0.3` — create an SCA challenge row and a DPIA log entry.
The wall-clock latency is `env.orch_latency_ms`. -/
def orchestrate (st : SystemState) (req : ScoreRequest) (env : OrchEnv)
    (now : ℤ) : OrchResult × SystemState :=
  let user_id := if req.card.user_id = "" then "unknown" else req.card.user_id
  let vel' := (record_transaction st.velocity user_id req.amount now env.obj_id).2
  let st := { st with velocity := vel' }
  let score := env.ml_score
  let top_features := env.top_features
  let rule_hits := env.rule_hits
  let is_critical := env.is_critical
  let md := make_decision score rule_hits is_critical req.has_initial_2fa top_features
  let scaStep : Option ScaChallengeRow × SystemState :=
    match score with
    | some s =>
      if 3/10 < s then
        let created :=
          create_sca_challenge st.sca_challenges user_id req.event_id s (some req.amount)
        (some created.1,
         { st with
             sca_challenges := created.2
             dpia_logs := st.dpia_logs ++ [⟨"SCA_TRIGGERED", req.event_id⟩] })
      else (none, st)
    | none => (none, st)
  ({ decision := md.1
     score := score
     rule_hits := rule_hits
     reasons := md.2.1
     requires_2fa := md.2.2
     latency_ms := env.orch_latency_ms
     model_version := MODEL_VERSION
     sca_challenge := scaStep.1 }, scaStep.2)

/-- Embeds `PostgresStorage.store_event` (storage.py lines 51-102):
`INSERT ... ON CONFLICT (event_id) DO NOTHING`. -/
def store_event (rows : List EventRow) (req : ScoreRequest) (idem_key : String) :
    List EventRow :=
  if rows.any (fun r => r.event_id == req.event_id) then rows
  else rows ++ [{ event_id := req.event_id
                  tenant_id := req.tenant_id
                  event_type := "card_payment"
                  payload := req
                  idem_key := idem_key }]

/-- Embeds `PostgresStorage.store_decision` (storage.py lines 104-166): plain
insert of the decision row. -/
def store_decision (rows : List DecisionRow) (row : DecisionRow) : List DecisionRow :=
  rows ++ [row]

/-- Embeds `PostgresStorage.get_decision` (storage.py lines 168-199). -/
def get_decision (rows : List DecisionRow) (decision_id : String) : Option DecisionRow :=
  rows.find? (fun r => r.decision_id == decision_id)

/-- The `/v1/score` response (`ScoreResponse` in models.py). -/
structure ScoreResponseM where
  event_id : String
  decision_id : String
  decision : DecisionType
  score : Option ℚ
  reasons : List Reason
  rule_hits : List String
  latency_ms : ℕ
  model_version : String
  requires_2fa : Bool
deriving DecidableEq, Repr

/-- The non-replay tail of `score_transaction` (`main.py` lines 126-212):
store the event, run the orchestration, store the decision row, and
publish the decision event plus — for CHALLENGE/DENY — the case event with
`priority = (DENY→2, CHALLENGE→1)` and
`queue = (DENY→"high_risk", CHALLENGE→"medium_risk")`. -/
def score_fresh_path (st : SystemState) (req : ScoreRequest) (env : OrchEnv)
    (decision_id idem_key : String) (now : ℕ) : ScoreResponseM × SystemState :=
  let events' := store_event st.events req idem_key
  let st := { st with events := events' }
  let orch := orchestrate st req env (now : ℤ)
  let result := orch.1
  let st := orch.2
  let total_latency_ms := env.total_latency_ms
  let drow : DecisionRow :=
    { decision_id := decision_id
      event_id := req.event_id
      tenant_id := req.tenant_id
      decision := result.decision
      score := result.score
      rule_hits := result.rule_hits
      reasons := result.reasons
      latency_ms := total_latency_ms
      model_version := MODEL_VERSION
      thresholds := (THRESHOLD_LOW_RISK, THRESHOLD_HIGH_RISK) }
  let st := { st with decisions := store_decision st.decisions drow }
  let msgs :=
    [KafkaMsg.decisionEvent req.event_id decision_id result.decision result.score] ++
    (if result.decision = DecisionType.CHALLENGE ∨ result.decision = DecisionType.DENY then
      [KafkaMsg.caseEvent req.event_id decision_id result.decision result.score
        (if result.decision = DecisionType.DENY then 2 else 1)
        (if result.decision = DecisionType.DENY then "high_risk" else "medium_risk")]
     else [])
  let st := { st with kafka := st.kafka ++ msgs }
  ({ event_id := req.event_id
     decision_id := decision_id
     decision := result.decision
     score := result.score
     reasons := result.reasons
     rule_hits := result.rule_hits
     latency_ms := total_latency_ms
     model_version := MODEL_VERSION
     requires_2fa := result.requires_2fa }, st)

/-- Embeds `score_transaction` (`decision-engine/app/main.py` lines 87-217),
successful execution (no store or bus exception): idempotency check; on a
hit with a retrievable prior decision, answer from the stored row with
`requires_2fa` hard-coded to `False`; otherwise continue on the non-replay
tail.  `decision_id` is the freshly generated `dec_…` candidate and `now`
the current time in seconds. -/
def score_transaction (st : SystemState) (req : ScoreRequest) (env : OrchEnv)
    (decision_id : String) (now : ℕ) : ScoreResponseM × SystemState :=
  let idem_key := req.tenant_id ++ ":" ++ req.event_id
  let cas := check_and_set st.idem idem_key decision_id now
  let st := { st with idem := cas.2 }
  match cas.1 with
  | some existing_decision_id =>
    match get_decision st.decisions existing_decision_id with
    | some cached =>
      ({ event_id := req.event_id
         decision_id := existing_decision_id
         decision := cached.decision
         score := cached.score
         reasons := cached.reasons
         rule_hits := cached.rule_hits
         latency_ms := cached.latency_ms
         model_version := cached.model_version
         requires_2fa := false }, st)
    | none => score_fresh_path st req env decision_id idem_key now
  | none => score_fresh_path st req env decision_id idem_key now

/-! ### Concrete fixtures used by several closed theorems -/

/-- An empty system (all stores empty). -/
def emptyState : SystemState :=
  { idem := [], velocity := [], events := [], decisions := [],
    sca_challenges := [], dpia_logs := [], audit_logs := [], kafka := [] }

/-- The spec's end-to-end example request: `amount = 25.00 EUR`, French
merchant, `has_initial_2fa = false`. -/
def exampleRequest : ScoreRequest :=
  { event_id := "evt_1"
    tenant_id := "default"
    amount := 25
    currency := "EUR"
    merchant := { id := "m1", name := none, mcc := "5411", country := "FR" }
    card := { card_id := "c1", user_id := "u1", card_type := "physical", bin := none }
    context := { ip := none, geo := none, device_id := none, channel := "web",
                 proxy_vpn_flag := false }
    has_initial_2fa := false }

/-- Downstream environment: ML returns `score = 0.60`, no rule hits, no
critical flag. -/
def envScore60 : OrchEnv :=
  { ml_score := some (3/5), top_features := [], rule_hits := [],
    is_critical := false, obj_id := 1, orch_latency_ms := 5, total_latency_ms := 9 }

/-- Downstream environment: the ML call failed (`score = null`), no rule
hits, no critical flag. -/
def envScoreNull : OrchEnv :=
  { ml_score := none, top_features := [], rule_hits := [],
    is_critical := false, obj_id := 1, orch_latency_ms := 5, total_latency_ms := 9 }

/-! ### C4: no SCORE_TRANSACTION audit entry on the scoring path -/

/-- C4: the scoring path never writes the `audit_logs` table — neither on
the replay branch nor on the non-replay branch does `score_transaction`
call `store_audit_log`, so no `action=SCORE_TRANSACTION` audit entry
exists (the only documented-but-uncalled writer is
`PostgresStorage.store_audit_log`). -/
theorem C4_no_audit_log_on_scoring_path :
    ∀ (st : SystemState) (req : ScoreRequest) (env : OrchEnv)
      (decision_id : String) (now : ℕ),
      (score_transaction st req env decision_id now).2.audit_logs = st.audit_logs := by
  intro st req env decision_id now
  unfold score_transaction score_fresh_path orchestrate
  dsimp only
  (repeat' split) <;> rfl

/-! ### C5: when is the SCA challenge actually created -/

/-- C5 counterexample: a request whose ML score is null gets
`requires_2fa = true` from the policy, yet no `sca_challenge` row is
persisted — the orchestrator gates SCA creation on
`score is not None and score > 0.3`, not on `requires_2fa`. -/
theorem C5_counterexample_null_score_no_challenge :
    (orchestrate emptyState exampleRequest envScoreNull 1000).1.requires_2fa = true ∧
    (orchestrate emptyState exampleRequest envScoreNull 1000).2.sca_challenges = [] ∧
    (orchestrate emptyState exampleRequest envScoreNull 1000).1.sca_challenge = none := by
  refine ⟨rfl, rfl, rfl⟩

/-- C5 (amended): `orchestrate` persists a PENDING SCA challenge row for
the transaction exactly when the ML score is non-null and exceeds 0.3,
independently of `requires_2fa`; with a null score no row is created. -/
theorem C5_sca_challenge_iff_score_gt_03 :
    ∀ (st : SystemState) (req : ScoreRequest) (env : OrchEnv) (now : ℤ),
      (orchestrate st req env now).2.sca_challenges =
        (match env.ml_score with
         | some s =>
           if 3/10 < s then
             st.sca_challenges ++
               [{ challenge_id := st.sca_challenges.length
                  user_id := if req.card.user_id = "" then "unknown" else req.card.user_id
                  transaction_id := req.event_id
                  risk_score := s
                  challenge_type := determine_sca_level s (some req.amount)
                  status := SCAStatus.PENDING }]
           else st.sca_challenges
         | none => st.sca_challenges) := by
  intro st req env now
  cases hs : env.ml_score with
  | none => simp [orchestrate, hs]
  | some s =>
    by_cases h : (3:ℚ)/10 < s
    · simp [orchestrate, create_sca_challenge, hs, h]
    · simp [orchestrate, create_sca_challenge, hs, h]

/-! ### C8: the medium-risk, low-amount scenario -/

/-- C8 counterexample: for the request `amount = 25.00`,
`has_initial_2fa = false` with ML score `0.60`, no rule hits and no
critical flag, the SCA challenge that is created has
`challenge_type = NONE`, not `BIOMETRIC`: `determine_sca_level` applies
the PSD2 low-value exemption `amount < 30` before the risk table. -/
theorem C8_counterexample_low_value_exemption :
    ((score_transaction emptyState exampleRequest envScore60 "dec_1" 1000).2.sca_challenges.map
      (fun r => r.challenge_type)) = [SCALevel.NONE] ∧
    decide (SCALevel.NONE = SCALevel.BIOMETRIC) = false ∧
    determine_sca_level (3/5) (some 25) = SCALevel.NONE := by
  refine ⟨?_, by decide, ?_⟩
  · norm_num [score_transaction, score_fresh_path, orchestrate, check_and_set,
      idemGet, idemSetex, make_decision, create_sca_challenge, determine_sca_level,
      store_event, store_decision, get_decision, record_transaction, zadd, zcard,
      zremrangebyscore, vsGet, vsSet, emptyState, exampleRequest, envScore60,
      THRESHOLD_HIGH_RISK, THRESHOLD_LOW_RISK, REDIS_IDEMPOTENCY_TTL,
      WINDOW_1H, WINDOW_24H]
  · norm_num [determine_sca_level]

/-- C8 (amended): for that request the response is `decision = CHALLENGE`
with `requires_2fa = true`, and the SCA challenge created for it is a
PENDING row for the transaction with `challenge_type = NONE` (the 25.00
amount falls under the `amount < 30` low-value exemption). -/
theorem C8_medium_risk_challenge :
    (score_transaction emptyState exampleRequest envScore60 "dec_1" 1000).1.decision =
      DecisionType.CHALLENGE ∧
    (score_transaction emptyState exampleRequest envScore60 "dec_1" 1000).1.requires_2fa =
      true ∧
    (score_transaction emptyState exampleRequest envScore60 "dec_1" 1000).2.sca_challenges =
      [{ challenge_id := 0, user_id := "u1", transaction_id := "evt_1",
         risk_score := 3/5, challenge_type := SCALevel.NONE,
         status := SCAStatus.PENDING }] := by
  refine ⟨?_, ?_, ?_⟩ <;>
    (norm_num [score_transaction, score_fresh_path, orchestrate, check_and_set,
      idemGet, idemSetex, make_decision, create_sca_challenge, determine_sca_level,
      store_event, store_decision, get_decision, record_transaction, zadd, zcard,
      zremrangebyscore, vsGet, vsSet, emptyState, exampleRequest, envScore60,
      THRESHOLD_HIGH_RISK, THRESHOLD_LOW_RISK, REDIS_IDEMPOTENCY_TTL,
      WINDOW_1H, WINDOW_24H]) <;>
    (intro h; exact absurd h (by decide))

/-! ### Idempotent replay (C6, C10) -/

/-- Embeds `orchestrate` touches only the velocity, SCA and DPIA stores. -/
lemma orchestrate_state_components (st : SystemState) (req : ScoreRequest)
    (env : OrchEnv) (now : ℤ) :
    (orchestrate st req env now).2.idem = st.idem ∧
    (orchestrate st req env now).2.events = st.events ∧
    (orchestrate st req env now).2.decisions = st.decisions ∧
    (orchestrate st req env now).2.kafka = st.kafka := by
  unfold orchestrate
  dsimp only
  (repeat' split) <;> exact ⟨rfl, rfl, rfl, rfl⟩

/-- Reading back the key just written by `SETEX` yields the value while the
TTL has not elapsed. -/
lemma idemGet_setex_same (st : RedisIdem) (key value : String) (ttl now t : ℕ) :
    idemGet (idemSetex st key value ttl now) key t =
      if t < now + ttl then some value else none := by
  unfold idemGet idemSetex
  have h : ((key, value, now + ttl).1 == key) = true := by simp
  simp [List.find?, h]

/-- Embeds `find?` skips a prefix on which the predicate is false. -/
lemma find?_append_left_none {α : Type} (p : α → Bool) (l₁ l₂ : List α)
    (h : ∀ x ∈ l₁, p x = false) : (l₁ ++ l₂).find? p = l₂.find? p := by
  induction l₁ with
  | nil => rfl
  | cons a t ih =>
    have ha := h a (List.mem_cons_self a t)
    simp only [List.cons_append, List.find?, ha]
    exact ih (fun x hx => h x (List.mem_cons_of_mem a hx))

/-- The non-replay tail leaves the idempotency store alone, appends exactly
one decision row — whose stored fields are the response's fields — and
answers with the candidate decision id. -/
lemma score_fresh_path_state (st : SystemState) (req : ScoreRequest)
    (env : OrchEnv) (decision_id idem_key : String) (now : ℕ) :
    (score_fresh_path st req env decision_id idem_key now).2.idem = st.idem ∧
    (score_fresh_path st req env decision_id idem_key now).2.decisions =
      st.decisions ++
        [{ decision_id := decision_id
           event_id := req.event_id
           tenant_id := req.tenant_id
           decision := (score_fresh_path st req env decision_id idem_key now).1.decision
           score := (score_fresh_path st req env decision_id idem_key now).1.score
           rule_hits := (score_fresh_path st req env decision_id idem_key now).1.rule_hits
           reasons := (score_fresh_path st req env decision_id idem_key now).1.reasons
           latency_ms := (score_fresh_path st req env decision_id idem_key now).1.latency_ms
           model_version :=
             (score_fresh_path st req env decision_id idem_key now).1.model_version
           thresholds := (THRESHOLD_LOW_RISK, THRESHOLD_HIGH_RISK) }] ∧
    (score_fresh_path st req env decision_id idem_key now).1.decision_id = decision_id := by
  unfold score_fresh_path
  dsimp only
  refine ⟨(orchestrate_state_components _ _ _ _).1, ?_, rfl⟩
  rw [store_decision, (orchestrate_state_components _ _ _ _).2.2.1]

/-- The replay branch of `score_transaction` in closed form: when the
idempotency key is live and the stored decision row is retrievable, the
handler answers from the row with `requires_2fa := false` and leaves every
store unchanged. -/
lemma score_transaction_hit (st : SystemState) (req : ScoreRequest) (env : OrchEnv)
    (decision_id : String) (now : ℕ) (eid : String) (cached : DecisionRow)
    (hg : idemGet st.idem ("idem:" ++ (req.tenant_id ++ ":" ++ req.event_id)) now = some eid)
    (hd : get_decision st.decisions eid = some cached) :
    score_transaction st req env decision_id now =
      ({ event_id := req.event_id
         decision_id := eid
         decision := cached.decision
         score := cached.score
         reasons := cached.reasons
         rule_hits := cached.rule_hits
         latency_ms := cached.latency_ms
         model_version := cached.model_version
         requires_2fa := false }, st) := by
  have hcas : check_and_set st.idem (req.tenant_id ++ ":" ++ req.event_id) decision_id now =
      (some eid, st.idem) := by
    unfold check_and_set
    dsimp only
    rw [hg]
  unfold score_transaction
  simp only [hcas, hd]

/-- C6: a second submission of the same `(tenant_id, event_id)` within the
idempotency TTL (first submission fresh, candidate id unused) returns the
same `decision`, `score`, `reasons`, `rule_hits` and the same
`decision_id` as the first, is served from the stored decision row, and
creates no new decision row. -/
theorem C6_idempotent_replay (st : SystemState) (req : ScoreRequest)
    (env₁ env₂ : OrchEnv) (id₁ id₂ : String) (now₁ now₂ : ℕ)
    (hfresh : idemGet st.idem ("idem:" ++ (req.tenant_id ++ ":" ++ req.event_id)) now₁ = none)
    (hid : ∀ r ∈ st.decisions, (r.decision_id == id₁) = false)
    (httl : now₂ < now₁ + REDIS_IDEMPOTENCY_TTL) :
    (score_transaction (score_transaction st req env₁ id₁ now₁).2 req env₂ id₂ now₂).1.decision
      = (score_transaction st req env₁ id₁ now₁).1.decision ∧
    (score_transaction (score_transaction st req env₁ id₁ now₁).2 req env₂ id₂ now₂).1.score
      = (score_transaction st req env₁ id₁ now₁).1.score ∧
    (score_transaction (score_transaction st req env₁ id₁ now₁).2 req env₂ id₂ now₂).1.reasons
      = (score_transaction st req env₁ id₁ now₁).1.reasons ∧
    (score_transaction (score_transaction st req env₁ id₁ now₁).2 req env₂ id₂ now₂).1.rule_hits
      = (score_transaction st req env₁ id₁ now₁).1.rule_hits ∧
    (score_transaction (score_transaction st req env₁ id₁ now₁).2 req env₂ id₂ now₂).1.decision_id
      = (score_transaction st req env₁ id₁ now₁).1.decision_id ∧
    (score_transaction (score_transaction st req env₁ id₁ now₁).2 req env₂ id₂ now₂).2.decisions
      = (score_transaction st req env₁ id₁ now₁).2.decisions := by
  have hcas : check_and_set st.idem (req.tenant_id ++ ":" ++ req.event_id) id₁ now₁ =
      (none, idemSetex st.idem ("idem:" ++ (req.tenant_id ++ ":" ++ req.event_id)) id₁
        REDIS_IDEMPOTENCY_TTL now₁) := by
    unfold check_and_set
    dsimp only
    rw [hfresh]
  have h1 : score_transaction st req env₁ id₁ now₁ =
      score_fresh_path
        { st with idem := (idemSetex st.idem
            ("idem:" ++ (req.tenant_id ++ ":" ++ req.event_id)) id₁
            REDIS_IDEMPOTENCY_TTL now₁) }
        req env₁ id₁ (req.tenant_id ++ ":" ++ req.event_id) now₁ := by
    unfold score_transaction
    simp only [hcas]
  obtain ⟨hAidem, hAdec, hAid⟩ :=
    score_fresh_path_state
      { st with idem := (idemSetex st.idem
          ("idem:" ++ (req.tenant_id ++ ":" ++ req.event_id)) id₁
          REDIS_IDEMPOTENCY_TTL now₁) }
      req env₁ id₁ (req.tenant_id ++ ":" ++ req.event_id) now₁
  have hget2 : idemGet (score_transaction st req env₁ id₁ now₁).2.idem
      ("idem:" ++ (req.tenant_id ++ ":" ++ req.event_id)) now₂ = some id₁ := by
    rw [h1, hAidem]
    dsimp only
    rw [idemGet_setex_same]
    rw [if_pos httl]
  have hgetdec : get_decision (score_transaction st req env₁ id₁ now₁).2.decisions id₁ =
      some { decision_id := id₁
             event_id := req.event_id
             tenant_id := req.tenant_id
             decision := (score_transaction st req env₁ id₁ now₁).1.decision
             score := (score_transaction st req env₁ id₁ now₁).1.score
             rule_hits := (score_transaction st req env₁ id₁ now₁).1.rule_hits
             reasons := (score_transaction st req env₁ id₁ now₁).1.reasons
             latency_ms := (score_transaction st req env₁ id₁ now₁).1.latency_ms
             model_version := (score_transaction st req env₁ id₁ now₁).1.model_version
             thresholds := (THRESHOLD_LOW_RISK, THRESHOLD_HIGH_RISK) } := by
    conv_lhs => rw [h1, hAdec]
    unfold get_decision
    dsimp only
    rw [find?_append_left_none _ _ _ hid]
    rw [h1]
    simp [List.find?]
  rw [score_transaction_hit (score_transaction st req env₁ id₁ now₁).2 req env₂ id₂ now₂
    id₁ _ hget2 hgetdec]
  refine ⟨rfl, rfl, rfl, rfl, ?_, rfl⟩
  rw [h1, hAid]

/-- Witness for C6: replaying the example request one second after a first
fresh submission answers with the first call's decision id and leaves the
decisions table unchanged. -/
theorem C6_idempotent_replay_witness :
    (score_transaction (score_transaction emptyState exampleRequest envScore60 "dec_1" 1000).2
        exampleRequest envScore60 "dec_2" 1001).1.decision_id
      = (score_transaction emptyState exampleRequest envScore60 "dec_1" 1000).1.decision_id ∧
    (score_transaction (score_transaction emptyState exampleRequest envScore60 "dec_1" 1000).2
        exampleRequest envScore60 "dec_2" 1001).2.decisions
      = (score_transaction emptyState exampleRequest envScore60 "dec_1" 1000).2.decisions := by
  have h := C6_idempotent_replay emptyState exampleRequest envScore60 envScore60
    "dec_1" "dec_2" 1000 1001 rfl (by simp [emptyState])
    (by norm_num [REDIS_IDEMPOTENCY_TTL])
  exact ⟨h.2.2.2.2.1, h.2.2.2.2.2⟩

/-- C10: on the idempotent-replay branch the response's `requires_2fa` is
hard-coded to `false`, whatever the cached decision row holds (the
`decisions` schema stores no `requires_2fa` column — `DecisionRow` has no
such field — so the branch cannot recover the original flag), and no new
decision row is created. -/
theorem C10_replay_requires_2fa_false (st : SystemState) (req : ScoreRequest)
    (env : OrchEnv) (decision_id : String) (now : ℕ) (eid : String) (cached : DecisionRow)
    (h1 : idemGet st.idem ("idem:" ++ (req.tenant_id ++ ":" ++ req.event_id)) now = some eid)
    (h2 : get_decision st.decisions eid = some cached) :
    (score_transaction st req env decision_id now).1.requires_2fa = false ∧
    (score_transaction st req env decision_id now).1.decision = cached.decision ∧
    (score_transaction st req env decision_id now).2.decisions = st.decisions := by
  rw [score_transaction_hit st req env decision_id now eid cached h1 h2]
  exact ⟨rfl, rfl, rfl⟩

/-- A stored CHALLENGE decision row whose original response carried
`requires_2fa = true` (its ML score was null). -/
def cachedChallengeRow : DecisionRow :=
  { decision_id := "dec_0"
    event_id := "evt_1"
    tenant_id := "default"
    decision := DecisionType.CHALLENGE
    score := none
    rule_hits := []
    reasons := [Reason.unableToScore]
    latency_ms := 9
    model_version := MODEL_VERSION
    thresholds := (THRESHOLD_LOW_RISK, THRESHOLD_HIGH_RISK) }

/-- A system state holding that row behind a live idempotency key. -/
def replayState : SystemState :=
  { emptyState with
      idem := [("idem:default:evt_1", "dec_0", 90000)]
      decisions := [cachedChallengeRow] }

/-- Witness for C10: replaying against the stored CHALLENGE decision (whose
original response had `requires_2fa = true`) answers CHALLENGE with
`requires_2fa = false`. -/
theorem C10_replay_requires_2fa_false_witness :
    (score_transaction replayState exampleRequest envScoreNull "dec_9" 1000).1.requires_2fa
      = false ∧
    (score_transaction replayState exampleRequest envScoreNull "dec_9" 1000).1.decision
      = DecisionType.CHALLENGE := by
  have h := C10_replay_requires_2fa_false replayState exampleRequest envScoreNull
    "dec_9" 1000 "dec_0" cachedChallengeRow rfl rfl
  exact ⟨h.1, h.2.1⟩

end FraudCore
